import Mathlib

/-!
Verification of the IRS EIN form-automation service (`final_AKS.py`).

The development shallowly embeds the decision logic of the source file:
the static mapping tables, the pure helpers (`normalize_state`,
`parse_formation_date`, the business-name cleanup, the mailing-address
predicate, the non-profit sub-type resolution), the branch structure of
the sub-type page of `navigate_and_fill_form`, and the orchestration
boundary `run_automation` (whose browser/storage side effects are
abstracted into an environment of step outcomes).

Python string operations are modelled over `List Char`:
`str.strip` / `str.upper` / `str.lower` / `str.endswith` / slicing /
`in` (substring) / `str.split` keep their Python meaning on the ASCII
inputs the program handles.
-/

/-- Python `str.strip()` on the underlying character list. -/
def pyStripList (l : List Char) : List Char :=
  ((l.dropWhile Char.isWhitespace).reverse.dropWhile Char.isWhitespace).reverse

/-- Python `s.strip()`. -/
def pyStrip (s : String) : String := ⟨pyStripList s.data⟩

/-- Python `s.upper()` (ASCII). -/
def pyUpper (s : String) : String := ⟨s.data.map Char.toUpper⟩

/-- Python `s.lower()` (ASCII). -/
def pyLower (s : String) : String := ⟨s.data.map Char.toLower⟩

/-- Boolean substring test on character lists (Python `sub in s`). -/
def infixOf (sub : List Char) : List Char → Bool
  | [] => sub.isEmpty
  | c :: t => sub.isPrefixOf (c :: t) || infixOf sub t

/-- Python `sub in s` (substring containment). -/
def strContains (s sub : String) : Bool := infixOf sub.data s.data

/-- Python `s.upper().endswith(suffix)`-style test: `s.endswith(suffix)`. -/
def pyEndsWith (s suffix : String) : Bool := suffix.data.isSuffixOf s.data

/-- Python slicing `s[:-n]` for `n > 0`: drop the last `n` characters. -/
def pyDropRight (s : String) (n : Nat) : String := ⟨s.data.take (s.data.length - n)⟩

/-- Python `s.split(sep)` for a one-character separator, on character lists. -/
def splitChar (sep : Char) : List Char → List (List Char)
  | [] => [[]]
  | c :: rest =>
    let r := splitChar sep rest
    if c == sep then [] :: r
    else
      match r with
      | h :: t => (c :: h) :: t
      | [] => [[c]]

/-- `IRSEINAutomation.STATE_MAPPING` (`final_AKS.py`, lines 460-474). -/
def STATE_MAPPING : List (String × String) := [
  ("ALABAMA", "AL"), ("ALASKA", "AK"), ("ARIZONA", "AZ"), ("ARKANSAS", "AR"),
  ("CALIFORNIA", "CA"), ("COLORADO", "CO"), ("CONNECTICUT", "CT"), ("DELAWARE", "DE"),
  ("FLORIDA", "FL"), ("GEORGIA", "GA"), ("HAWAII", "HI"), ("IDAHO", "ID"),
  ("ILLINOIS", "IL"), ("INDIANA", "IN"), ("IOWA", "IA"), ("KANSAS", "KS"),
  ("KENTUCKY", "KY"), ("LOUISIANA", "LA"), ("MAINE", "ME"), ("MARYLAND", "MD"),
  ("MASSACHUSETTS", "MA"), ("MICHIGAN", "MI"), ("MINNESOTA", "MN"), ("MISSISSIPPI", "MS"),
  ("MISSOURI", "MO"), ("MONTANA", "MT"), ("NEBRASKA", "NE"), ("NEVADA", "NV"),
  ("NEW HAMPSHIRE", "NH"), ("NEW JERSEY", "NJ"), ("NEW MEXICO", "NM"), ("NEW YORK", "NY"),
  ("NORTH CAROLINA", "NC"), ("NORTH DAKOTA", "ND"), ("OHIO", "OH"), ("OKLAHOMA", "OK"),
  ("OREGON", "OR"), ("PENNSYLVANIA", "PA"), ("RHODE ISLAND", "RI"), ("SOUTH CAROLINA", "SC"),
  ("SOUTH DAKOTA", "SD"), ("TENNESSEE", "TN"), ("TEXAS", "TX"), ("UTAH", "UT"),
  ("VERMONT", "VT"), ("VIRGINIA", "VA"), ("WASHINGTON", "WA"), ("WEST VIRGINIA", "WV"),
  ("WISCONSIN", "WI"), ("WYOMING", "WY"), ("DISTRICT OF COLUMBIA", "DC")]

/-- `IRSEINAutomation.ENTITY_TYPE_MAPPING` (`final_AKS.py`, lines 476-501). -/
def ENTITY_TYPE_MAPPING : List (String × String) := [
  ("Sole Proprietorship", "Sole Proprietor"),
  ("Individual", "Sole Proprietor"),
  ("Partnership", "Partnership"),
  ("Joint venture", "Partnership"),
  ("Limited Partnership", "Partnership"),
  ("General Partnership", "Partnership"),
  ("C-Corporation", "Corporations"),
  ("S-Corporation", "Corporations"),
  ("Professional Corporation", "Corporations"),
  ("Corporation", "Corporations"),
  ("Non-Profit Corporation", "View Additional Types, Including Tax-Exempt and Governmental Organizations"),
  ("Limited Liability", "Limited Liability Company (LLC)"),
  ("Company (LLC)", "Limited Liability Company (LLC)"),
  ("LLC", "Limited Liability Company (LLC)"),
  ("Limited Liability Company", "Limited Liability Company (LLC)"),
  ("Limited Liability Company (LLC)", "Limited Liability Company (LLC)"),
  ("Professional Limited Liability Company", "Limited Liability Company (LLC)"),
  ("Limited Liability Partnership", "Partnership"),
  ("LLP", "Partnership"),
  ("Professional Limited Liability Company (PLLC)", "Limited Liability Company (LLC)"),
  ("Association", "View Additional Types, Including Tax-Exempt and Governmental Organizations"),
  ("Co-Ownership", "Partnership"),
  ("Doing Business As (DBA)", "Sole Proprietor"),
  ("Trusteeship", "Trusts")]

/-- `IRSEINAutomation.RADIO_BUTTON_MAPPING` (`final_AKS.py`, lines 503-511). -/
def RADIO_BUTTON_MAPPING : List (String × String) := [
  ("Sole Proprietor", "sole"),
  ("Partnership", "partnerships"),
  ("Corporations", "corporations"),
  ("Limited Liability Company (LLC)", "limited"),
  ("Estate", "estate"),
  ("Trusts", "trusts"),
  ("View Additional Types, Including Tax-Exempt and Governmental Organizations", "viewadditional")]

/-- `IRSEINAutomation.SUB_TYPE_MAPPING` (`final_AKS.py`, lines 513-537). -/
def SUB_TYPE_MAPPING : List (String × String) := [
  ("Sole Proprietorship", "Sole Proprietor"),
  ("Individual", "Sole Proprietor"),
  ("Partnership", "Partnership"),
  ("Joint venture", "Joint Venture"),
  ("Limited Partnership", "Partnership"),
  ("General Partnership", "Partnership"),
  ("C-Corporation", "Corporation"),
  ("S-Corporation", "S Corporation"),
  ("Professional Corporation", "Personal Service Corporation"),
  ("Corporation", "Corporation"),
  ("Non-Profit Corporation", "**This is dependent on the business_description**"),
  ("Limited Liability", "N/A"),
  ("Limited Liability Company (LLC)", "N/A"),
  ("LLC", "N/A"),
  ("Limited Liability Company", "N/A"),
  ("Professional Limited Liability Company", "N/A"),
  ("Limited Liability Partnership", "Partnership"),
  ("LLP", "Partnership"),
  ("Professional Limited Liability Company (PLLC)", "N/A"),
  ("Association", "N/A"),
  ("Co-Ownership", "Partnership"),
  ("Doing Business As (DBA)", "N/A"),
  ("Trusteeship", "Irrevocable Trust")]

/-- `IRSEINAutomation.SUB_TYPE_BUTTON_MAPPING` (`final_AKS.py`, lines 539-550). -/
def SUB_TYPE_BUTTON_MAPPING : List (String × String) := [
  ("Sole Proprietor", "sole"),
  ("Household Employer", "house"),
  ("Partnership", "parnership"),
  ("Joint Venture", "joint"),
  ("Corporation", "corp"),
  ("S Corporation", "scorp"),
  ("Personal Service Corporation", "personalservice"),
  ("Irrevocable Trust", "irrevocable"),
  ("Non-Profit/Tax-Exempt Organization", "nonprofit"),
  ("Other", "other_option")]

/-- `nonprofit_keywords` (`final_AKS.py`, line 611). -/
def NONPROFIT_KEYWORDS : List String :=
  ["non-profit", "nonprofit", "charity", "charitable", "501(c)", "tax-exempt"]

/-- The four mailing-address keys consulted at `final_AKS.py`, line 725. -/
def MAILING_KEYS : List String :=
  ["mailingStreet", "mailingCity", "mailingState", "mailingZip"]

/-- The legal-suffix tokens of the business-name cleanup (`final_AKS.py`, line 762). -/
def BUSINESS_NAME_ENDINGS : List String := ["Corp", "Inc", "LLC", "LC", "PLLC", "PA"]

/-- `IRSEINAutomation.normalize_state` (`final_AKS.py`, lines 865-869).
The `state` parameter is `Option String` because call sites pass values
that may be Python `None`; `if not state` also catches the empty string. -/
def normalize_state (state : Option String) : String :=
  match state with
  | Option.none => "TX"
  | some s =>
    if s = "" then "TX"
    else
      let state_clean := pyStrip (pyUpper s)
      match STATE_MAPPING.lookup state_clean with
      | some code => code
      | Option.none => if state_clean.length = 2 then state_clean else "TX"

/-- `self.ENTITY_TYPE_MAPPING.get(entity_type)` (`final_AKS.py`, line 601):
a `dict.get` with no default. -/
def mapEntityType (entity_type : String) : Option String :=
  ENTITY_TYPE_MAPPING.lookup entity_type

/-- `self.RADIO_BUTTON_MAPPING.get(mapped_type)` (`final_AKS.py`, line 602):
`mapped_type` may be Python `None`, which is not a key of the dict, so the
lookup then yields `None` again. -/
def radioIdForCategory (mapped_type : Option String) : Option String :=
  match mapped_type with
  | some category => RADIO_BUTTON_MAPPING.lookup category
  | Option.none => Option.none

/-- `self.SUB_TYPE_BUTTON_MAPPING.get(sub_type, "other_option")`
(`final_AKS.py`, line 613). -/
def subTypeRadioId (sub_type : String) : String :=
  (SUB_TYPE_BUTTON_MAPPING.lookup sub_type).getD "other_option"

/-- Sub-type resolution of `navigate_and_fill_form` (`final_AKS.py`,
lines 608-612): `SUB_TYPE_MAPPING.get(entity_type, "Other")`, overridden
for `"Non-Profit Corporation"` by the keyword scan over the lowercased
business description. -/
def resolveSubType (entity_type : String) (business_description : Option String) : String :=
  let sub_type := (SUB_TYPE_MAPPING.lookup entity_type).getD "Other"
  if entity_type = "Non-Profit Corporation" then
    let business_desc := pyLower (business_description.getD "")
    if NONPROFIT_KEYWORDS.any (fun keyword => strContains business_desc keyword) then
      "Non-Profit/Tax-Exempt Organization"
    else "Other"
  else sub_type

/-- One abstract page interaction of the navigation procedure. -/
inductive FormAction where
  | radioSelect (id : String) (desc : String)
  | continueClick (desc : String)
  | settle (milliseconds : Nat)
deriving DecidableEq

/-- The sub-type page block of `navigate_and_fill_form` (`final_AKS.py`,
lines 607-623), as the list of interactions it performs when each
interaction succeeds: if `mapped_type not in ["Limited Liability Company
(LLC)", "Estate"]` the sub-type radio is selected and `Continue` is
clicked twice with a `time.sleep(0.5)` between the clicks; otherwise a
single `Continue` is clicked. -/
def subTypePageActions (entity_type : String) (business_description : Option String)
    (mapped_type : Option String) : List FormAction :=
  if ¬ (mapped_type = some "Limited Liability Company (LLC)" ∨ mapped_type = some "Estate") then
    let sub_type := resolveSubType entity_type business_description
    let sub_type_radio_id := subTypeRadioId sub_type
    [FormAction.radioSelect sub_type_radio_id ("Sub-type: " ++ sub_type),
     FormAction.continueClick "Continue sub-type (first click)",
     FormAction.settle 500,
     FormAction.continueClick "Continue sub-type (second click)"]
  else
    [FormAction.continueClick "Continue after entity type"]

/-- `has_mailing_address` (`final_AKS.py`, lines 721-726):
`data.mailing_address or {}`, then `any(....get(key, "").strip() ...)`
over the four mailing keys. -/
def has_mailing_address (mailing_address : Option (List (String × String))) : Bool :=
  let d := mailing_address.getD []
  MAILING_KEYS.any (fun key => pyStrip ((d.lookup key).getD "") ≠ "")

/-- The mailing-address branch (`final_AKS.py`, lines 728-733): the id of
the radio that is selected. -/
def mailingAddressRadioId (mailing_address : Option (List (String × String))) : String :=
  if has_mailing_address mailing_address then "radioAnotherAddress_y"
  else "radioAnotherAddress_n"

/-- The character class kept by `re.sub(r'[^\w\s\-&]', '', name)`
(`final_AKS.py`, line 765): word characters, whitespace, hyphen, ampersand. -/
def isNameChar (c : Char) : Bool :=
  c.isAlphanum || c = '_' || c.isWhitespace || c = '-' || c = '&'

/-- Application of the `re.sub` above: remove every character outside the class. -/
def pyFilterNameChars (s : String) : String := ⟨s.data.filter isNameChar⟩

/-- One iteration of the suffix loop (`final_AKS.py`, lines 762-764):
`if business_name.upper().endswith(ending.upper()):
business_name = business_name[:-(len(ending))].strip()`. -/
def stripEndingStep (business_name : String) (ending : String) : String :=
  if pyEndsWith (pyUpper business_name) (pyUpper ending) then
    pyStrip (pyDropRight business_name ending.length)
  else business_name

/-- The business-name cleanup (`final_AKS.py`, lines 760-765): the suffix
loop over `['Corp', 'Inc', 'LLC', 'LC', 'PLLC', 'PA']` followed by the
punctuation `re.sub`. -/
def cleanBusinessName (entity_name : String) : String :=
  pyFilterNameChars (BUSINESS_NAME_ENDINGS.foldl stripEndingStep entity_name)

/-- Numeric value of a digit string. -/
def digitsToNat (l : List Char) : Nat :=
  l.foldl (fun acc c => acc * 10 + (c.toNat - 48)) 0

/-- A date field: between `lo` and `hi` digits, nothing else. -/
def dateFieldOk (l : List Char) (lo hi : Nat) : Bool :=
  decide (lo ≤ l.length) && decide (l.length ≤ hi) && l.all Char.isDigit

/-- Gregorian leap-year rule used by `datetime`. -/
def isLeapYear (y : Nat) : Bool :=
  y % 4 == 0 && (y % 100 != 0 || y % 400 == 0)

/-- Length of a month, as validated by `datetime`. -/
def daysInMonth (y m : Nat) : Nat :=
  if m = 2 then (if isLeapYear y then 29 else 28)
  else if m = 4 ∨ m = 6 ∨ m = 9 ∨ m = 11 then 30
  else 31

/-- The range checks `datetime.strptime` performs when building the date
(`MINYEAR <= year`, `1 <= month <= 12`, `1 <= day <= days in month`). -/
def validDate (y m d : Nat) : Bool :=
  decide (1 ≤ y) && decide (1 ≤ m) && decide (m ≤ 12) &&
  decide (1 ≤ d) && decide (d ≤ daysInMonth y m)

/-- Field validation shared by the three formats: `%Y` is exactly four
digits, `%m` and `%d` are one or two digits, and the assembled date must
be a valid calendar date; on success, `(month, year)` —
`parse_formation_date` only consumes `parsed.month, parsed.year`. -/
def mkMonthYear (ys ms ds : List Char) : Option (Nat × Nat) :=
  if dateFieldOk ys 4 4 && dateFieldOk ms 1 2 && dateFieldOk ds 1 2 then
    let y := digitsToNat ys
    let m := digitsToNat ms
    let d := digitsToNat ds
    if validDate y m d then some (m, y) else Option.none
  else Option.none

/-- The three `datetime.strptime` format strings tried by
`parse_formation_date` (`final_AKS.py`, line 874), in source order. -/
inductive DateFmt where
  | ymdDash
  | mdySlash
  | ymdSlash
deriving DecidableEq

/-- `datetime.strptime(s, fmt)` restricted to the three formats, returning
`(parsed.month, parsed.year)` on success. The separator split models the
format regex (`%Y` = four digits, `%m`/`%d` = one or two digits, full
match required). -/
def strptimeMonthYear (fmt : DateFmt) (s : String) : Option (Nat × Nat) :=
  match fmt with
  | DateFmt.ymdDash =>
    match splitChar '-' s.data with
    | [ys, ms, ds] => mkMonthYear ys ms ds
    | _ => Option.none
  | DateFmt.mdySlash =>
    match splitChar '/' s.data with
    | [ms, ds, ys] => mkMonthYear ys ms ds
    | _ => Option.none
  | DateFmt.ymdSlash =>
    match splitChar '/' s.data with
    | [ys, ms, ds] => mkMonthYear ys ms ds
    | _ => Option.none

/-- The format list `["%Y-%m-%d", "%m/%d/%Y", "%Y/%m/%d"]` (`final_AKS.py`, line 874). -/
def FORMATS : List DateFmt := [DateFmt.ymdDash, DateFmt.mdySlash, DateFmt.ymdSlash]

/-- `IRSEINAutomation.parse_formation_date` (`final_AKS.py`, lines 871-881):
`if not date_str: return 6, 2024`; otherwise try the formats in order on
`date_str.strip()`, returning the first successful parse, else `6, 2024`. -/
def parse_formation_date (date_str : Option String) : Nat × Nat :=
  match date_str with
  | Option.none => (6, 2024)
  | some s =>
    if s = "" then (6, 2024)
    else
      match FORMATS.findSome? (fun fmt => strptimeMonthYear fmt (pyStrip s)) with
      | some r => r
      | Option.none => (6, 2024)

/-- A Python value as far as `run_automation` and its caller handle one:
`None`, a bool, a string, or a 2-tuple. -/
inductive PyVal where
  | none
  | bool (b : Bool)
  | str (s : String)
  | pair (fst snd : PyVal)
deriving DecidableEq

/-- Python truthiness for the values above; a 2-tuple is always truthy. -/
def pyTruthy : PyVal → Bool
  | PyVal.none => false
  | PyVal.bool b => b
  | PyVal.str s => s ≠ ""
  | PyVal.pair _ _ => true

/-- Lift `Optional[str]` into `PyVal`. -/
def optStrToPyVal : Option String → PyVal
  | Option.none => PyVal.none
  | some s => PyVal.str s

/-- Externally observable effects of `run_automation`:
`_save_json_data_sync(json_data)` with the `response_status` the record
carries at that moment, and the `finally`-block `cleanup()`. -/
inductive RunEvent where
  | saveOutcomeRecord (response_status : Option String)
  | cleanup
deriving DecidableEq

/-- Outcomes of the effectful sub-steps of one `run_automation` call,
decided by the browser/storage environment:
`initOk`/`initError` — whether `initialize_driver` raises (line 959);
`navOutcome` — `navigate_and_fill_form` returning or raising (line 960);
`finalContinueOk` — the continue click at line 961;
`captureOk`/`capturePath`/`captureUrl` — whether the page capture chain
succeeds and what it saves (lines 382-447);
`uploadOk`/`uploadBlobUrl` — the Azure upload when `open(png_path)`
succeeds (lines 883-897);
`timeSeconds` — `int(time.time())` at line 964. -/
structure RunEnv where
  initOk : Bool
  initError : String
  navOutcome : Except String Unit
  finalContinueOk : Bool
  captureOk : Bool
  capturePath : String
  captureUrl : String
  uploadOk : Bool
  uploadBlobUrl : String
  timeSeconds : Nat

/-- The second (shadowing) `FormAutomationBase.capture_page_as_png`
(`final_AKS.py`, lines 382-447): on success the pair
`(png_path, png_url)`, and `(None, None)` when any step of the chain
throws (line 438); the temporary PDF is removed in the `finally` block
either way. -/
def capture_page_as_png (env : RunEnv) (filename : String) : Option String × Option String :=
  if env.captureOk then (some env.capturePath, some env.captureUrl)
  else (Option.none, Option.none)

/-- `IRSEINAutomation.upload_screenshot_to_azure_sync` (`final_AKS.py`,
lines 883-897) as seen from `run_automation`: the `png_path` argument it
receives is a `PyVal`; `open(png_path, "rb")` raises unless the value is
a string, the `except` swallows the error and the function returns
`None`. -/
def upload_screenshot_to_azure_sync (env : RunEnv) (png_path : PyVal) : PyVal :=
  match png_path with
  | PyVal.str _ => if env.uploadOk then PyVal.str env.uploadBlobUrl else PyVal.none
  | _ => PyVal.none

/-- What one `run_automation` call produces: the returned Python tuple
(as a list of `PyVal`) and the observable events in order. -/
structure RunResult where
  retval : List PyVal
  events : List RunEvent
deriving DecidableEq

/-- `IRSEINAutomation.run_automation` (`final_AKS.py`, lines 920-981).
`json_data` starts with `response_status = None`; the driver is
initialized, the form filled, and the final continue clicked — any of
these raising lands in the `except` block, which sets
`response_status = "fail"`, saves the record and returns
`(False, str(e), None, None)`.  On the success path
`response_status = "success"`, `png_path` receives the *tuple* returned
by `capture_page_as_png`, the Azure upload runs when `png_path` is
truthy, the record is saved and
`(True, "Form submitted successfully", png_path, azure_blob_url)` is
returned.  The `finally` block always runs `cleanup()` last. -/
def run_automation (env : RunEnv) (record_id : String) : RunResult :=
  if env.initOk then
    match env.navOutcome with
    | Except.error e =>
      { retval := [PyVal.bool false, PyVal.str e, PyVal.none, PyVal.none],
        events := [RunEvent.saveOutcomeRecord (some "fail"), RunEvent.cleanup] }
    | Except.ok _ =>
      if env.finalContinueOk then
        let png_filename := "print_" ++ record_id ++ "_" ++ toString env.timeSeconds ++ ".png"
        let png := capture_page_as_png env png_filename
        let png_path := PyVal.pair (optStrToPyVal png.1) (optStrToPyVal png.2)
        let azure_blob_url :=
          if pyTruthy png_path then upload_screenshot_to_azure_sync env png_path
          else PyVal.none
        { retval := [PyVal.bool true, PyVal.str "Form submitted successfully",
                     png_path, azure_blob_url],
          events := [RunEvent.saveOutcomeRecord (some "success"), RunEvent.cleanup] }
      else
        { retval := [PyVal.bool false,
                     PyVal.str "Failed to continue after receive EIN selection",
                     PyVal.none, PyVal.none],
          events := [RunEvent.saveOutcomeRecord (some "fail"), RunEvent.cleanup] }
  else
    { retval := [PyVal.bool false, PyVal.str env.initError, PyVal.none, PyVal.none],
      events := [RunEvent.saveOutcomeRecord (some "fail"), RunEvent.cleanup] }

/-- The destructuring performed by the `/run-irs-ein` endpoint
(`final_AKS.py`, line 1125): `success, message, png_path, png_url,
azure_blob_url = await automation.run_automation(case_data)` — it
succeeds exactly on a 5-tuple. -/
def runIrsEinDestructure (t : List PyVal) :
    Option (PyVal × PyVal × PyVal × PyVal × PyVal) :=
  match t with
  | [a, b, c, d, e] => some (a, b, c, d, e)
  | _ => Option.none

/-- Environment of a run whose entity-type radio selection fails after
retries inside `navigate_and_fill_form`, so the procedure raises. -/
def abortedRunEnv : RunEnv :=
  ⟨true, "", Except.error "Failed to select entity type: Corporations",
   true, true, "shot.png", "https://host/static/shot.png", true,
   "https://blob.core/payload/shot.png", 1700000000⟩

/-- Environment of a run in which navigation and the final continue click
succeed but every page-capture method fails. -/
def captureFailEnv : RunEnv :=
  ⟨true, "", Except.ok (), true, false, "", "", true,
   "https://blob.core/payload/shot.png", 1700000001⟩

/-- An association-list lookup misses when no key matches. -/
theorem lookupEqNone {β : Type} (l : List (String × β)) (s : String)
    (h : ∀ p ∈ l, p.1 ≠ s) : l.lookup s = Option.none := by
  induction l with
  | nil => rfl
  | cons p t ih =>
    simp only [List.lookup]
    have h1 : (s == p.1) = false := by
      simp only [beq_eq_false_iff_ne]
      exact Ne.symm (h p (List.mem_cons_self p t))
    rw [h1]
    exact ih (fun q hq => h q (List.mem_cons_of_mem p hq))

/-- C5: `normalize_state` is total: each of the 51 state-name table
entries maps — in any letter case and with surrounding whitespace — to
its 2-letter code; any other input that is already a 2-letter code
passes through unchanged; every unrecognized non-2-letter input,
including empty or missing input, maps to `"TX"`. -/
theorem normalize_state_total_spec :
    (∀ p ∈ STATE_MAPPING, ∀ s : String, pyStrip (pyUpper s) = p.1 →
      normalize_state (some s) = p.2) ∧
    (∀ s : String, s.length = 2 → pyUpper s = s → pyStrip s = s →
      normalize_state (some s) = s) ∧
    (∀ s : String, STATE_MAPPING.lookup (pyStrip (pyUpper s)) = Option.none →
      (pyStrip (pyUpper s)).length ≠ 2 → normalize_state (some s) = "TX") ∧
    normalize_state Option.none = "TX" ∧ normalize_state (some "") = "TX" := by
  refine ⟨?_, ?_, ?_, rfl, rfl⟩
  · intro p hp s hs
    have hkeys : ∀ q ∈ STATE_MAPPING, STATE_MAPPING.lookup q.1 = some q.2 := by decide
    have hne : ∀ q ∈ STATE_MAPPING, q.1 ≠ "" := by decide
    have hs0 : s ≠ "" := by
      intro h
      subst h
      exact hne p hp (hs.symm.trans (by decide))
    simp only [normalize_state]
    rw [if_neg hs0, hs, hkeys p hp]
  · intro s h2 hup hstrip
    have hs0 : s ≠ "" := by
      intro h
      subst h
      exact absurd h2 (by decide)
    have hclean : pyStrip (pyUpper s) = s := by rw [hup, hstrip]
    have hlen : ∀ q ∈ STATE_MAPPING, q.1.length ≠ 2 := by decide
    have hlook : STATE_MAPPING.lookup s = Option.none := by
      refine lookupEqNone _ _ (fun q hq heq => hlen q hq ?_)
      rw [heq]
      exact h2
    simp only [normalize_state]
    rw [if_neg hs0, hclean, hlook]
    simp only [if_pos h2]
  · intro s hlook hlen
    by_cases hs0 : s = ""
    · subst hs0
      rfl
    · simp only [normalize_state]
      rw [if_neg hs0, hlook]
      simp only [if_neg hlen]

/-- Concrete instances of `normalize_state_total_spec`: a cased,
space-padded full name, a bare 2-letter code, and an unrecognized name. -/
theorem normalize_state_total_spec_witness :
    normalize_state (some " new York ") = "NY" ∧
    normalize_state (some "ZZ") = "ZZ" ∧
    normalize_state (some "Atlantis") = "TX" :=
  ⟨normalize_state_total_spec.1 ("NEW YORK", "NY") (by decide) " new York " (by decide),
   normalize_state_total_spec.2.1 "ZZ" (by decide) (by decide) (by decide),
   normalize_state_total_spec.2.2.1 "Atlantis" (by decide) (by decide)⟩

/-- C4 counterexample: `ENTITY_TYPE_MAPPING.get(entity_type)` has no
default, so an unmapped entity type resolves to `None`, and the dependent
`RADIO_BUTTON_MAPPING.get(None)` is `None` as well — an undefined result,
not a fallback; the claimed totality fails. -/
theorem entity_type_lookup_undefined_counterexample :
    mapEntityType "Unknown Entity" = Option.none ∧
    radioIdForCategory (mapEntityType "Unknown Entity") = Option.none ∧
    ¬ (∀ entity_type : String, (mapEntityType entity_type).isSome ∧
        (radioIdForCategory (mapEntityType entity_type)).isSome) := by
  refine ⟨by decide, by decide, fun h => ?_⟩
  have h1 := (h "Unknown Entity").1
  rw [show mapEntityType "Unknown Entity" = Option.none from by decide] at h1
  exact absurd h1 (by decide)

/-- C4 amended: state normalization and the sub-type→radio-id lookup are
total with the stated fallbacks (`"TX"`, `"other_option"`), but the
entity-type→category and category→radio-id lookups have no default: an
unmapped entity type resolves to an undefined (`None`) category and an
undefined (`None`) radio id. -/
theorem mapping_lookup_defaults_amended :
    (∀ s : String, STATE_MAPPING.lookup (pyStrip (pyUpper s)) = Option.none →
      (pyStrip (pyUpper s)).length ≠ 2 → normalize_state (some s) = "TX") ∧
    (∀ sub_type : String, SUB_TYPE_BUTTON_MAPPING.lookup sub_type = Option.none →
      subTypeRadioId sub_type = "other_option") ∧
    (∀ sub_type v, SUB_TYPE_BUTTON_MAPPING.lookup sub_type = some v →
      subTypeRadioId sub_type = v) ∧
    (∀ entity_type : String, ENTITY_TYPE_MAPPING.lookup entity_type = Option.none →
      mapEntityType entity_type = Option.none ∧
      radioIdForCategory (mapEntityType entity_type) = Option.none) := by
  refine ⟨?_, ?_, ?_, ?_⟩
  · intro s hlook hlen
    by_cases hs0 : s = ""
    · subst hs0
      rfl
    · simp only [normalize_state]
      rw [if_neg hs0, hlook]
      simp only [if_neg hlen]
  · intro st h
    simp [subTypeRadioId, h]
  · intro st v h
    simp [subTypeRadioId, h]
  · intro et h
    have h1 : mapEntityType et = Option.none := h
    exact ⟨h1, by simp [radioIdForCategory, h1]⟩

/-- Concrete instances of `mapping_lookup_defaults_amended`: an unmapped
state, sub-type and entity type. -/
theorem mapping_lookup_defaults_amended_witness :
    normalize_state (some "Xanadu") = "TX" ∧
    subTypeRadioId "Mystery Subtype" = "other_option" ∧
    (mapEntityType "Mystery Entity" = Option.none ∧
      radioIdForCategory (mapEntityType "Mystery Entity") = Option.none) :=
  ⟨mapping_lookup_defaults_amended.1 "Xanadu" (by decide) (by decide),
   mapping_lookup_defaults_amended.2.1 "Mystery Subtype" (by decide),
   mapping_lookup_defaults_amended.2.2.2 "Mystery Entity" (by decide)⟩

/-- The boolean substring test agrees with `List.IsInfix`. -/
theorem infixOf_iff (sub : List Char) (l : List Char) :
    infixOf sub l = true ↔ sub <:+: l := by
  induction l with
  | nil => simp [infixOf, List.isEmpty_iff]
  | cons c t ih => simp [infixOf, List.infix_cons_iff, ih]

/-- C9: for entity type `"Non-Profit Corporation"`, the resolved sub-type
is `"Non-Profit/Tax-Exempt Organization"` iff the lowercased business
description contains one of the fixed keywords as a substring; otherwise
(including an absent description) it is `"Other"`. -/
theorem nonprofit_sub_type_iff (business_description : Option String) :
    (resolveSubType "Non-Profit Corporation" business_description =
        "Non-Profit/Tax-Exempt Organization" ↔
      ∃ kw ∈ NONPROFIT_KEYWORDS,
        kw.data <:+: (pyLower (business_description.getD "")).data) ∧
    ((¬ ∃ kw ∈ NONPROFIT_KEYWORDS,
        kw.data <:+: (pyLower (business_description.getD "")).data) →
      resolveSubType "Non-Profit Corporation" business_description = "Other") ∧
    resolveSubType "Non-Profit Corporation" Option.none = "Other" := by
  have key : (NONPROFIT_KEYWORDS.any
      (fun keyword => strContains (pyLower (business_description.getD "")) keyword)) = true ↔
      ∃ kw ∈ NONPROFIT_KEYWORDS,
        kw.data <:+: (pyLower (business_description.getD "")).data := by
    simp [List.any_eq_true, strContains, infixOf_iff]
  cases h : NONPROFIT_KEYWORDS.any
      (fun keyword => strContains (pyLower (business_description.getD "")) keyword) with
  | true =>
    have hval : resolveSubType "Non-Profit Corporation" business_description =
        "Non-Profit/Tax-Exempt Organization" := by
      simp [resolveSubType, h]
    rw [key] at h
    exact ⟨⟨fun _ => h, fun _ => hval⟩, fun hn => absurd h hn, by decide⟩
  | false =>
    have hval : resolveSubType "Non-Profit Corporation" business_description = "Other" := by
      simp [resolveSubType, h]
    have hn : ¬ ∃ kw ∈ NONPROFIT_KEYWORDS,
        kw.data <:+: (pyLower (business_description.getD "")).data := by
      intro hx
      rw [key.mpr hx] at h
      exact absurd h (by decide)
    refine ⟨⟨fun he => absurd (hval.symm.trans he) (by decide), fun hx => absurd hx hn⟩,
      fun _ => hval, by decide⟩

/-- Concrete instances of `nonprofit_sub_type_iff`: a description with a
keyword and one without. -/
theorem nonprofit_sub_type_iff_witness :
    resolveSubType "Non-Profit Corporation" (some "a local CHARITY fund") =
      "Non-Profit/Tax-Exempt Organization" ∧
    resolveSubType "Non-Profit Corporation" (some "software consulting") = "Other" :=
  ⟨(nonprofit_sub_type_iff (some "a local CHARITY fund")).1.mpr (by decide),
   (nonprofit_sub_type_iff (some "software consulting")).2.1 (by decide)⟩

/-- C7: the mailing-address branch selects
`"different mailing address = yes"` iff at least one of the four mailing
sub-fields is non-blank after trimming; an all-blank mailing object and
an absent mailing object select `"no"`. -/
theorem mailing_address_branch_iff (mailing_address : List (String × String)) :
    (mailingAddressRadioId (some mailing_address) = "radioAnotherAddress_y" ↔
      ∃ k ∈ MAILING_KEYS, pyStrip ((mailing_address.lookup k).getD "") ≠ "") ∧
    ((∀ k ∈ MAILING_KEYS, pyStrip ((mailing_address.lookup k).getD "") = "") →
      mailingAddressRadioId (some mailing_address) = "radioAnotherAddress_n") ∧
    mailingAddressRadioId Option.none = "radioAnotherAddress_n" := by
  have key : has_mailing_address (some mailing_address) = true ↔
      ∃ k ∈ MAILING_KEYS, pyStrip ((mailing_address.lookup k).getD "") ≠ "" := by
    simp [has_mailing_address, List.any_eq_true]
  cases hb : has_mailing_address (some mailing_address) with
  | true =>
    have hval : mailingAddressRadioId (some mailing_address) = "radioAnotherAddress_y" := by
      simp [mailingAddressRadioId, hb]
    refine ⟨⟨fun _ => key.mp hb, fun _ => hval⟩, fun hall => ?_, by decide⟩
    obtain ⟨k, hk, hne⟩ := key.mp hb
    exact absurd (hall k hk) hne
  | false =>
    have hval : mailingAddressRadioId (some mailing_address) = "radioAnotherAddress_n" := by
      simp [mailingAddressRadioId, hb]
    have hn : ¬ ∃ k ∈ MAILING_KEYS, pyStrip ((mailing_address.lookup k).getD "") ≠ "" := by
      intro hx
      rw [key.mpr hx] at hb
      exact absurd hb (by decide)
    exact ⟨⟨fun he => absurd (hval.symm.trans he) (by decide), fun hx => absurd hx hn⟩,
      fun _ => hval, by decide⟩

/-- Concrete instances of `mailing_address_branch_iff`: one non-blank
sub-field selects yes; an all-blank object selects no. -/
theorem mailing_address_branch_iff_witness :
    mailingAddressRadioId (some [("mailingCity", "Austin")]) = "radioAnotherAddress_y" ∧
    mailingAddressRadioId (some [("mailingStreet", "  "), ("mailingZip", "")]) =
      "radioAnotherAddress_n" :=
  ⟨(mailing_address_branch_iff [("mailingCity", "Austin")]).1.mpr
      ⟨"mailingCity", by decide, by decide⟩,
   (mailing_address_branch_iff [("mailingStreet", "  "), ("mailingZip", "")]).2.1
      (by decide)⟩

/-- C6: the sub-type page is skipped — no sub-type radio, a single
Continue — iff the mapped category is LLC or Estate; for every other
mapped category the block selects the resolved sub-type radio and clicks
Continue exactly twice, with a 0.5 s settle between the clicks. -/
theorem sub_type_page_spec (entity_type : String) (business_description : Option String)
    (mapped_type : Option String) :
    ((∃ id d, FormAction.radioSelect id d ∈
        subTypePageActions entity_type business_description mapped_type) ↔
      ¬ (mapped_type = some "Limited Liability Company (LLC)" ∨
         mapped_type = some "Estate")) ∧
    (¬ (mapped_type = some "Limited Liability Company (LLC)" ∨
        mapped_type = some "Estate") →
      subTypePageActions entity_type business_description mapped_type =
        [FormAction.radioSelect
            (subTypeRadioId (resolveSubType entity_type business_description))
            ("Sub-type: " ++ resolveSubType entity_type business_description),
         FormAction.continueClick "Continue sub-type (first click)",
         FormAction.settle 500,
         FormAction.continueClick "Continue sub-type (second click)"] ∧
      (subTypePageActions entity_type business_description mapped_type).countP
        (fun a => match a with | FormAction.continueClick _ => true | _ => false) = 2) ∧
    ((mapped_type = some "Limited Liability Company (LLC)" ∨
        mapped_type = some "Estate") →
      subTypePageActions entity_type business_description mapped_type =
        [FormAction.continueClick "Continue after entity type"]) := by
  by_cases h : mapped_type = some "Limited Liability Company (LLC)" ∨
      mapped_type = some "Estate"
  · have hval : subTypePageActions entity_type business_description mapped_type =
        [FormAction.continueClick "Continue after entity type"] := by
      simp only [subTypePageActions, if_neg (not_not_intro h)]
    refine ⟨⟨fun hx => ?_, fun hn => absurd h hn⟩, fun hn => absurd h hn, fun _ => hval⟩
    obtain ⟨id, d, hmem⟩ := hx
    rw [hval] at hmem
    simp at hmem
  · have hval : subTypePageActions entity_type business_description mapped_type =
        [FormAction.radioSelect
            (subTypeRadioId (resolveSubType entity_type business_description))
            ("Sub-type: " ++ resolveSubType entity_type business_description),
         FormAction.continueClick "Continue sub-type (first click)",
         FormAction.settle 500,
         FormAction.continueClick "Continue sub-type (second click)"] := by
      simp only [subTypePageActions, if_pos h]
    refine ⟨⟨fun _ => h, fun _ => ⟨_, _, by rw [hval]; exact List.mem_cons_self _ _⟩⟩,
      fun _ => ⟨hval, by rw [hval]; rfl⟩, fun hp => absurd hp h⟩

/-- Concrete instances of `sub_type_page_spec`: a corporation visits the
sub-type page with two continues; an LLC skips it. -/
theorem sub_type_page_spec_witness :
    subTypePageActions "Corporation" Option.none (some "Corporations") =
      [FormAction.radioSelect (subTypeRadioId (resolveSubType "Corporation" Option.none))
          ("Sub-type: " ++ resolveSubType "Corporation" Option.none),
       FormAction.continueClick "Continue sub-type (first click)",
       FormAction.settle 500,
       FormAction.continueClick "Continue sub-type (second click)"] ∧
    (subTypePageActions "Corporation" Option.none (some "Corporations")).countP
      (fun a => match a with | FormAction.continueClick _ => true | _ => false) = 2 ∧
    subTypePageActions "LLC" Option.none (some "Limited Liability Company (LLC)") =
      [FormAction.continueClick "Continue after entity type"] :=
  ⟨((sub_type_page_spec "Corporation" Option.none (some "Corporations")).2.1
      (by decide)).1,
   ((sub_type_page_spec "Corporation" Option.none (some "Corporations")).2.1
      (by decide)).2,
   (sub_type_page_spec "LLC" Option.none
      (some "Limited Liability Company (LLC)")).2.2 (Or.inl rfl)⟩

/-- A loop iteration leaves the name unchanged when the suffix does not match. -/
theorem stripEndingStepEqSelf (business_name ending : String)
    (h : pyEndsWith (pyUpper business_name) (pyUpper ending) = false) :
    stripEndingStep business_name ending = business_name := by
  simp [stripEndingStep, h]

/-- C8 counterexample: `"Acme, Inc."` does not end with the bare token
`Inc` (the trailing period defeats `endswith`), so no suffix is stripped
and the cleanup yields `"Acme Inc"`, not the claimed `"Acme"`; moreover
the loop can strip more than one trailing suffix token
(`"Acme Inc Corp"` loses both `Corp` and `Inc`). -/
theorem business_name_cleanup_counterexample :
    cleanBusinessName "Acme, Inc." = "Acme Inc" ∧
    ("Acme Inc" : String) ≠ "Acme" ∧
    cleanBusinessName "Acme Inc Corp" = "Acme" ∧
    ("Acme" : String) ≠ "Acme Inc" := by
  exact ⟨by decide, by decide, by decide, by decide⟩

/-- C8 amended: the cleanup iterates over the tokens
`Corp, Inc, LLC, LC, PLLC, PA` in order, and whenever the current name
(uppercased) ends exactly with the token it drops that many trailing
characters and trims — so more than one token can be stripped, and a name
whose suffix is followed by punctuation is not stripped — then removes
every character other than word characters, whitespace, hyphen and
ampersand: `"Acme Corp"` → `"Acme"`, `"Acme, Inc."` → `"Acme Inc"`,
`"Acme Inc Corp"` → `"Acme"`, and a name ending in no listed token is
only punctuation-cleaned. -/
theorem business_name_cleanup_amended :
    cleanBusinessName "Acme Corp" = "Acme" ∧
    cleanBusinessName "Acme, Inc." = "Acme Inc" ∧
    cleanBusinessName "Acme Inc Corp" = "Acme" ∧
    (∀ name : String,
      (∀ e ∈ BUSINESS_NAME_ENDINGS, pyEndsWith (pyUpper name) (pyUpper e) = false) →
      cleanBusinessName name = pyFilterNameChars name) := by
  refine ⟨by decide, by decide, by decide, ?_⟩
  intro name h
  have hc : ∀ e ∈ BUSINESS_NAME_ENDINGS, stripEndingStep name e = name :=
    fun e he => stripEndingStepEqSelf name e (h e he)
  unfold cleanBusinessName
  simp only [BUSINESS_NAME_ENDINGS, List.foldl_cons, List.foldl_nil]
  rw [hc "Corp" (by decide), hc "Inc" (by decide), hc "LLC" (by decide),
    hc "LC" (by decide), hc "PLLC" (by decide), hc "PA" (by decide)]

/-- Concrete instance of `business_name_cleanup_amended`: a name ending
in no listed token is only punctuation-cleaned. -/
theorem business_name_cleanup_amended_witness :
    cleanBusinessName "Frozen Yogurt!" = "Frozen Yogurt" :=
  (business_name_cleanup_amended.2.2.2 "Frozen Yogurt!" (by decide)).trans (by decide)

/-- C10: `parse_formation_date` tries `%Y-%m-%d`, `%m/%d/%Y`, `%Y/%m/%d`
in that fixed order and returns the `(month, year)` of the first format
that parses the trimmed input; `"2024-05-24"` and `"05/24/2024"` both
yield `(5, 2024)`, and unparsable or absent input yields `(6, 2024)`. -/
theorem parse_formation_date_spec :
    parse_formation_date (some "2024-05-24") = (5, 2024) ∧
    parse_formation_date (some "05/24/2024") = (5, 2024) ∧
    parse_formation_date (some "not-a-date") = (6, 2024) ∧
    parse_formation_date Option.none = (6, 2024) ∧
    (∀ s r, strptimeMonthYear DateFmt.ymdDash (pyStrip s) = some r →
      parse_formation_date (some s) = r) ∧
    (∀ s r, strptimeMonthYear DateFmt.ymdDash (pyStrip s) = Option.none →
      strptimeMonthYear DateFmt.mdySlash (pyStrip s) = some r →
      parse_formation_date (some s) = r) ∧
    (∀ s r, strptimeMonthYear DateFmt.ymdDash (pyStrip s) = Option.none →
      strptimeMonthYear DateFmt.mdySlash (pyStrip s) = Option.none →
      strptimeMonthYear DateFmt.ymdSlash (pyStrip s) = some r →
      parse_formation_date (some s) = r) ∧
    (∀ s, strptimeMonthYear DateFmt.ymdDash (pyStrip s) = Option.none →
      strptimeMonthYear DateFmt.mdySlash (pyStrip s) = Option.none →
      strptimeMonthYear DateFmt.ymdSlash (pyStrip s) = Option.none →
      parse_formation_date (some s) = (6, 2024)) := by
  refine ⟨by decide, by decide, by decide, rfl, ?_, ?_, ?_, ?_⟩
  · intro s r h1
    by_cases hs : s = ""
    · subst hs
      rw [show strptimeMonthYear DateFmt.ymdDash (pyStrip "") = Option.none from by decide]
        at h1
      exact absurd h1 (by simp)
    · simp only [parse_formation_date, if_neg hs, FORMATS, List.findSome?_cons, h1]
  · intro s r h1 h2
    by_cases hs : s = ""
    · subst hs
      rw [show strptimeMonthYear DateFmt.mdySlash (pyStrip "") = Option.none from by decide]
        at h2
      exact absurd h2 (by simp)
    · simp only [parse_formation_date, if_neg hs, FORMATS, List.findSome?_cons, h1, h2]
  · intro s r h1 h2 h3
    by_cases hs : s = ""
    · subst hs
      rw [show strptimeMonthYear DateFmt.ymdSlash (pyStrip "") = Option.none from by decide]
        at h3
      exact absurd h3 (by simp)
    · simp only [parse_formation_date, if_neg hs, FORMATS, List.findSome?_cons, h1, h2, h3]
  · intro s h1 h2 h3
    by_cases hs : s = ""
    · subst hs
      rfl
    · simp only [parse_formation_date, if_neg hs, FORMATS, List.findSome?_cons, h1, h2, h3,
        List.findSome?_nil]

/-- Concrete instance of `parse_formation_date_spec`: the second format
wins only after the first fails. -/
theorem parse_formation_date_spec_witness :
    parse_formation_date (some "12/25/2023") = (12, 2023) :=
  parse_formation_date_spec.2.2.2.2.2.1 "12/25/2023" (12, 2023) (by decide) (by decide)

/-- C1: when a mandatory navigation step fails after its retry budget —
`navigate_and_fill_form` raises, or the final continue click fails — the
`except` block makes `run_automation` return a result whose first element
is `False` and whose artifact components are `None`, and it saves an
outcome record with `response_status = "fail"` before the `finally`-block
cleanup. -/
theorem run_automation_abort_boundary (env : RunEnv) (record_id : String)
    (hinit : env.initOk = true)
    (habort : (∃ e, env.navOutcome = Except.error e) ∨ env.finalContinueOk = false) :
    (run_automation env record_id).retval[0]? = some (PyVal.bool false) ∧
    (run_automation env record_id).retval[2]? = some PyVal.none ∧
    (run_automation env record_id).retval[3]? = some PyVal.none ∧
    (run_automation env record_id).events =
      [RunEvent.saveOutcomeRecord (some "fail"), RunEvent.cleanup] := by
  cases hnav : env.navOutcome with
  | error e => simp [run_automation, hinit, hnav]
  | ok u =>
    have hfc : env.finalContinueOk = false := by
      rcases habort with ⟨e, he⟩ | h
      · rw [hnav] at he
        exact absurd he (by simp)
      · exact h
    cases u
    simp [run_automation, hinit, hnav, hfc]

/-- Concrete instance of `run_automation_abort_boundary`: a run whose
entity-type selection raised. -/
theorem run_automation_abort_boundary_witness :
    (run_automation abortedRunEnv "rec-1").retval[0]? = some (PyVal.bool false) ∧
    (run_automation abortedRunEnv "rec-1").retval[2]? = some PyVal.none ∧
    (run_automation abortedRunEnv "rec-1").retval[3]? = some PyVal.none ∧
    (run_automation abortedRunEnv "rec-1").events =
      [RunEvent.saveOutcomeRecord (some "fail"), RunEvent.cleanup] :=
  run_automation_abort_boundary abortedRunEnv "rec-1" rfl
    (Or.inl ⟨"Failed to select entity type: Corporations", rfl⟩)

/-- C2: on every path `run_automation` returns a tuple of exactly four
elements, so the five-variable destructuring at the `/run-irs-ein`
endpoint fails for every request that reaches the automation. -/
theorem run_automation_tuple_arity (env : RunEnv) (record_id : String) :
    (run_automation env record_id).retval.length = 4 ∧
    runIrsEinDestructure (run_automation env record_id).retval = Option.none := by
  obtain ⟨i, ie, nav, fc, cap, cp, cu, up, ub, t⟩ := env
  cases i <;> cases nav <;> cases fc <;>
    simp [run_automation, runIrsEinDestructure]

/-- C3 (code bug): when every capture method fails,
`capture_page_as_png` returns `(None, None)` and the run is still
reported successful — but `run_automation` binds the whole returned
*tuple* to `png_path`, so the third component of its result is the truthy
pair `(None, None)` rather than the null artifact reference its
`Tuple[bool, str, Optional[str], Optional[str]]` annotation declares. -/
theorem capture_failure_reported_success_with_pair_artifact :
    capture_page_as_png captureFailEnv "print_rec-2_1700000001.png" =
      (Option.none, Option.none) ∧
    (run_automation captureFailEnv "rec-2").retval[0]? = some (PyVal.bool true) ∧
    (run_automation captureFailEnv "rec-2").events =
      [RunEvent.saveOutcomeRecord (some "success"), RunEvent.cleanup] ∧
    (run_automation captureFailEnv "rec-2").retval[2]? =
      some (PyVal.pair PyVal.none PyVal.none) ∧
    PyVal.pair PyVal.none PyVal.none ≠ PyVal.none ∧
    pyTruthy (PyVal.pair PyVal.none PyVal.none) = true ∧
    (run_automation captureFailEnv "rec-2").retval[3]? = some PyVal.none := by
  exact ⟨by decide, by decide, by decide, by decide, by decide, by decide, by decide⟩
